import Mathlib

/-! Verification of the DAGI iterative-refinement orchestrator (`pydagi.py`).

The definitions below are a shallow embedding of the Python source: pure
functions become Lean functions, the async fan-out/gather becomes a total
function driven by a per-agent outcome oracle, and the round loop becomes a
fuel-indexed step function.  Machine-level details that the claims do not
touch (wall-clock timestamps, uuid generation, the asyncio scheduler) are
modelled by opaque parameters.
-/

namespace DAGI

/-- A capability value on an agent or in a requirement map: either a scalar
(modelled as a string) or a list of scalars, mirroring the duck-typed
capability dictionaries of `pydagi.py`. -/
inductive CapVal where
  | scalar (s : String)
  | vals (xs : List String)
  deriving DecidableEq, Repr

/-- A Python dictionary with string keys, modelled as an association list;
`dictGet` is `dict.get`: the first binding for the key, if any. -/
def dictGet {β : Type} (m : List (String × β)) (k : String) : Option β :=
  match m with
  | [] => none
  | (k', v) :: rest => if k' = k then some v else dictGet rest k

/-- Model of `CapabilityBasedAllocator._matches_requirements` (pydagi.py:1035-1047).
For each required key: the agent must have the key; a list-typed requirement
matches when it intersects the agent's value (scalar coerced to a singleton
list); a scalar requirement against a list-typed agent value matches by
membership; otherwise by equality. -/
def matches_requirements (agent_capabilities required_capabilities :
    List (String × CapVal)) : Bool :=
  required_capabilities.all fun kv =>
    match dictGet agent_capabilities kv.1 with
    | none => false
    | some agentValue =>
      match kv.2 with
      | .vals reqList =>
          let agentList := match agentValue with
            | .vals xs => xs
            | .scalar s => [s]
          reqList.any (fun item => agentList.contains item)
      | .scalar rv =>
          match agentValue with
          | .vals xs => xs.contains rv
          | .scalar av => av = rv

/-- Coercion of a capability value to a set (Python: `agent_value if
isinstance(agent_value, list) else [agent_value]`). -/
def coerceToList : CapVal → List String
  | .vals xs => xs
  | .scalar s => [s]

/-- The matching rule as the specification states it, used to compare
`matches_requirements` against the spec's words. -/
def capValueMatches (reqValue agentValue : CapVal) : Prop :=
  match reqValue with
  | .vals rs => ∃ x ∈ rs, x ∈ coerceToList agentValue
  | .scalar rv =>
      match agentValue with
      | .vals xs => rv ∈ xs
      | .scalar av => av = rv

/-- An agent as the allocator sees it: a stable identifier plus a declared
capability map. -/
structure Agent where
  agent_id : String
  capabilities : List (String × CapVal)
  deriving DecidableEq, Repr

/-- The two requirement sub-maps of `Task.requirements` that the allocator
reads (`proposer_capabilities`, `critic_capabilities`); `none` models an
absent key. -/
structure TaskReqs where
  proposer_capabilities : Option (List (String × CapVal))
  critic_capabilities : Option (List (String × CapVal))
  deriving Repr

/-- Default critic requirement used by `CapabilityBasedAllocator.allocate`
(pydagi.py:1008). -/
def defaultCriticReqs : List (String × CapVal) := [("roles", CapVal.vals ["critic"])]

/-- Model of `CapabilityBasedAllocator.allocate` (pydagi.py:1004-1033): one pass over
the candidates collecting proposer and critic matches, `TaskAllocationError`
when no proposer matched, critic set = critic matches minus proposer ids with
a degraded-mode fallback to the full pre-exclusion critic match set. -/
def allocate (reqs : TaskReqs) (agents : List Agent) :
    Except String (List Agent × List Agent) :=
  let proposer_reqs := reqs.proposer_capabilities.getD []
  let critic_reqs := reqs.critic_capabilities.getD defaultCriticReqs
  let scanned := agents.foldl
    (fun (acc : List Agent × List Agent) agent =>
      let acc1 := if matches_requirements agent.capabilities proposer_reqs
                  then (acc.1 ++ [agent], acc.2) else acc
      if matches_requirements agent.capabilities critic_reqs
      then (acc1.1, acc1.2 ++ [agent]) else acc1)
    ([], [])
  let proposing_agents := scanned.1
  let critiquing_agents := scanned.2
  if proposing_agents.isEmpty then
    .error "No suitable proposing agents found"
  else
    let proposer_ids := proposing_agents.map (·.agent_id)
    let selected_critics :=
      critiquing_agents.filter (fun c => !proposer_ids.contains c.agent_id)
    let selected_critics :=
      if selected_critics.isEmpty && !critiquing_agents.isEmpty
      then critiquing_agents else selected_critics
    .ok (proposing_agents, selected_critics)

lemma allocate_scan_eq (pr cr : List (String × CapVal)) (agents : List Agent)
    (accP accC : List Agent) :
    agents.foldl
      (fun (acc : List Agent × List Agent) agent =>
        let acc1 := if matches_requirements agent.capabilities pr
                    then (acc.1 ++ [agent], acc.2) else acc
        if matches_requirements agent.capabilities cr
        then (acc1.1, acc1.2 ++ [agent]) else acc1)
      (accP, accC)
    = (accP ++ agents.filter (fun a => matches_requirements a.capabilities pr),
       accC ++ agents.filter (fun a => matches_requirements a.capabilities cr)) := by
  induction agents generalizing accP accC with
  | nil => simp
  | cons a rest ih =>
    by_cases hp : matches_requirements a.capabilities pr <;>
      by_cases hc : matches_requirements a.capabilities cr <;>
      simp [List.foldl_cons, List.filter_cons, hp, hc, ih]

/-- C5 -- The capability-matching predicate returns true iff every required
key is present on the agent and its value matches per the list-intersection /
scalar-membership / equality rule; an agent lacking a required key never
matches, and the empty requirement map matches every agent. -/
theorem matches_requirements_correct (a r : List (String × CapVal)) :
    (matches_requirements a r = true ↔
      ∀ kv ∈ r, ∃ v, dictGet a kv.1 = some v ∧ capValueMatches kv.2 v)
    ∧ matches_requirements a [] = true := by
  constructor
  · rw [matches_requirements, List.all_eq_true]
    constructor
    · intro h kv hkv
      have := h kv hkv
      revert this
      cases hg : dictGet a kv.1 with
      | none => intro h'; exact absurd h' (by simp)
      | some v =>
        intro h'
        refine ⟨v, rfl, ?_⟩
        cases hr : kv.2 with
        | vals rs =>
          simp only [hr] at h'
          rcases List.any_eq_true.mp h' with ⟨x, hx, hmem⟩
          exact ⟨x, hx, by cases v <;> simpa [coerceToList] using hmem⟩
        | scalar rv =>
          simp only [hr] at h'
          cases v with
          | vals xs => simpa [capValueMatches] using h'
          | scalar av => simpa [capValueMatches, eq_comm] using of_decide_eq_true h'
    · intro h kv hkv
      rcases h kv hkv with ⟨v, hg, hm⟩
      rw [hg]
      cases hr : kv.2 with
      | vals rs =>
        rw [hr] at hm
        rcases hm with ⟨x, hx, hmem⟩
        exact List.any_eq_true.mpr ⟨x, hx, by cases v <;> simpa [coerceToList] using hmem⟩
      | scalar rv =>
        rw [hr] at hm
        cases v with
        | vals xs => simpa using hm
        | scalar av => simp [capValueMatches] at hm; simp [hm]
  · rfl

/-- C4 -- `allocate` fails exactly when no candidate matches the proposer
requirements; on success it returns all proposer matches as proposers, and
the critic matches minus the proposer-id set as critics, falling back to the
full pre-exclusion critic match set when the subtraction empties a non-empty
critic set. -/
theorem allocate_correct (reqs : TaskReqs) (agents : List Agent) :
    ((∃ e, allocate reqs agents = .error e) ↔
      ∀ a ∈ agents,
        matches_requirements a.capabilities (reqs.proposer_capabilities.getD []) = false)
    ∧ ∀ ps cs, allocate reqs agents = .ok (ps, cs) →
        ps = agents.filter
          (fun a => matches_requirements a.capabilities
            (reqs.proposer_capabilities.getD [])) ∧
        cs = (let cm := agents.filter
                (fun a => matches_requirements a.capabilities
                  (reqs.critic_capabilities.getD defaultCriticReqs))
              let sub := cm.filter
                (fun c => !(ps.map (·.agent_id)).contains c.agent_id)
              if sub = [] ∧ cm ≠ [] then cm else sub) := by
  have hscan := allocate_scan_eq (reqs.proposer_capabilities.getD [])
    (reqs.critic_capabilities.getD defaultCriticReqs) agents [] []
  simp only [List.nil_append] at hscan
  constructor
  · constructor
    · rintro ⟨e, he⟩ a ha
      rw [allocate, hscan] at he
      by_contra hfalse
      have hmem : a ∈ agents.filter
          (fun a => matches_requirements a.capabilities
            (reqs.proposer_capabilities.getD [])) := by
        refine List.mem_filter.mpr ⟨ha, ?_⟩
        simpa using hfalse
      have hne : ¬ (agents.filter
          (fun a => matches_requirements a.capabilities
            (reqs.proposer_capabilities.getD []))).isEmpty := by
        cases hl : agents.filter
            (fun a => matches_requirements a.capabilities
              (reqs.proposer_capabilities.getD [])) with
        | nil => rw [hl] at hmem; exact absurd hmem (by simp)
        | cons x xs => simp [hl]
      rw [if_neg hne] at he
      exact absurd he (by simp)
    · intro hall
      refine ⟨"No suitable proposing agents found", ?_⟩
      rw [allocate, hscan]
      have hempty : agents.filter
          (fun a => matches_requirements a.capabilities
            (reqs.proposer_capabilities.getD [])) = [] := by
        rw [List.filter_eq_nil_iff]
        intro a ha
        simp [hall a ha]
      rw [if_pos (by simp [hempty])]
  · intro ps cs hok
    rw [allocate, hscan] at hok
    by_cases hne : (agents.filter
        (fun a => matches_requirements a.capabilities
          (reqs.proposer_capabilities.getD []))).isEmpty
    · rw [if_pos hne] at hok
      exact absurd hok (by simp)
    · rw [if_neg hne] at hok
      simp only [Except.ok.injEq, Prod.mk.injEq] at hok
      obtain ⟨hps, hcs⟩ := hok
      refine ⟨hps.symm, ?_⟩
      rw [← hcs, ← hps]
      simp only
      by_cases hsub : (agents.filter
          (fun a => matches_requirements a.capabilities
            (reqs.critic_capabilities.getD defaultCriticReqs))).filter
          (fun c => !((agents.filter
            (fun a => matches_requirements a.capabilities
              (reqs.proposer_capabilities.getD []))).map (·.agent_id)).contains
                c.agent_id) = []
      · by_cases hcm : agents.filter
            (fun a => matches_requirements a.capabilities
              (reqs.critic_capabilities.getD defaultCriticReqs)) = []
        · simp [hsub, hcm]
        · simp [hsub, hcm, List.isEmpty_iff]
      · simp [hsub, List.isEmpty_iff]

/-- Witness for C4: a two-agent pool where the critic overlaps nobody. -/
theorem allocate_correct_witness :
    (allocate
      ⟨some [("task_types", CapVal.vals ["text_generation"])], none⟩
      [⟨"p1", [("task_types", CapVal.vals ["text_generation"])]⟩,
       ⟨"c1", [("roles", CapVal.vals ["critic"])]⟩]
      = .ok ([⟨"p1", [("task_types", CapVal.vals ["text_generation"])]⟩],
             [⟨"c1", [("roles", CapVal.vals ["critic"])]⟩]))
    ∧ ([⟨"p1", [("task_types", CapVal.vals ["text_generation"])]⟩]
        = ([⟨"p1", [("task_types", CapVal.vals ["text_generation"])]⟩,
            ⟨"c1", [("roles", CapVal.vals ["critic"])]⟩] : List Agent).filter
            (fun a => matches_requirements a.capabilities
              ((some [("task_types", CapVal.vals ["text_generation"])]).getD []))) := by
  have h := (allocate_correct
    ⟨some [("task_types", CapVal.vals ["text_generation"])], none⟩
    [⟨"p1", [("task_types", CapVal.vals ["text_generation"])]⟩,
     ⟨"c1", [("roles", CapVal.vals ["critic"])]⟩]).2
    [⟨"p1", [("task_types", CapVal.vals ["text_generation"])]⟩]
    [⟨"c1", [("roles", CapVal.vals ["critic"])]⟩] (by rfl)
  exact ⟨by rfl, h.1⟩

/-! Section: Responses, fan-out/gather, and the iteration loop

The async fan-out of `IterationController._collect_responses` is modelled by
a per-agent outcome oracle: for each dispatched call the oracle says whether
the agent replied (and with which message kind and content), returned `None`,
timed out, or raised.  `asyncio.gather` preserves input order, so the
collected results are the orderly map of the classification over the
recipient list. -/

/-- The projection of a response message's `content` dictionary onto the keys
the controller ever reads (`proposal`, `revised_proposal`, `critique`,
`error`); a missing key is `none`. -/
structure RespContent where
  proposal : Option String
  revised_proposal : Option String
  critique : Option String
  error : Option String
  deriving DecidableEq, Repr

/-- A valid per-agent response record, as built at pydagi.py:1300. -/
structure RespRecord where
  agent_id : String
  response_data : RespContent
  deriving DecidableEq, Repr

/-- A per-agent failure record (`{"agent_id": ..., "error": ...}`). -/
structure ErrRecord where
  agent_id : String
  error : String
  deriving DecidableEq, Repr

/-- Outcome of one dispatched `agent.process` call under its timeout. -/
inductive AgentOutcome where
  | reply (message_type : String) (content : RespContent)
  | noReply
  | timeout
  | fault (e : String)
  deriving DecidableEq, Repr

/-- The classification done by the inner `get_response` closure of
`_collect_responses` (pydagi.py:1296-1312). -/
def get_response (expected_response_type : String) (aid : String) :
    AgentOutcome → RespRecord ⊕ ErrRecord
  | .reply t c =>
      if t = expected_response_type then .inl ⟨aid, c⟩
      else if t = "PROCESSING_ERROR" then .inr ⟨aid, c.error.getD "Unknown error"⟩
      else .inr ⟨aid, "Incorrect/No response (expected " ++ expected_response_type ++ ")"⟩
  | .noReply => .inr ⟨aid, "Incorrect/No response (expected " ++ expected_response_type ++ ")"⟩
  | .timeout => .inr ⟨aid, "Timeout"⟩
  | .fault e => .inr ⟨aid, "Unexpected error: " ++ e⟩

/-- A proposal entry of a `CRITIQUE_REQUEST` payload: the text, plus either an
opaque display id (anonymized) or the author's agent id (not anonymized). -/
structure PropInfo where
  proposal : String
  display_id : Option String
  agent_id : Option String
  deriving DecidableEq, Repr

/-- The content of an outbound controller message, by message kind. -/
inductive MsgContent where
  | taskPrompt (description : String) (input_data : List (String × String))
  | revisionRequest (last_proposal : String) (critiques : List String)
      (original_task_description : String)
  | critiqueRequest (proposals : List PropInfo) (original_task_description : String)
  deriving DecidableEq, Repr

/-- Record of one envelope the controller handed to the channel. -/
structure SentMsg where
  recipient_id : String
  message_type : String
  content : MsgContent
  iteration : Nat
  deriving DecidableEq, Repr

/-- Model of `res and not res.get("error")`: a classified result that is a valid
response. -/
def resp_ok : RespRecord ⊕ ErrRecord → Option RespRecord
  | .inl v => some v
  | .inr _ => none

/-- Model of `res and res.get("error")`: a classified result that is a failure. -/
def resp_err : RespRecord ⊕ ErrRecord → Option ErrRecord
  | .inl _ => none
  | .inr e => some e

@[simp] lemma resp_ok_inl (v : RespRecord) : resp_ok (.inl v) = some v := rfl

@[simp] lemma resp_ok_inr (e : ErrRecord) : resp_ok (.inr e) = none := rfl

@[simp] lemma resp_err_inl (v : RespRecord) : resp_err (.inl v) = none := rfl

@[simp] lemma resp_err_inr (e : ErrRecord) : resp_err (.inr e) = some e := rfl

/-- Model of `IterationController._collect_responses` (pydagi.py:1269-1322): build one
message per recipient, dispatch concurrently, classify each outcome, and
split into valid responses and per-agent failures (the Python function logs
the failures and returns the valid list; the model returns both, plus the
sent messages, for inspection). -/
def collect_responses (recipient_agents : List Agent)
    (initiating_message_type expected_response_type : String)
    (content_for : String → MsgContent) (iteration : Nat)
    (outcome : String → AgentOutcome) :
    List RespRecord × List ErrRecord × List SentMsg :=
  let results := recipient_agents.map
    (fun a => get_response expected_response_type a.agent_id (outcome a.agent_id))
  let valid_responses := results.filterMap resp_ok
  let errors := results.filterMap resp_err
  let sent := recipient_agents.map
    (fun a => SentMsg.mk a.agent_id initiating_message_type
      (content_for a.agent_id) iteration)
  (valid_responses, errors, sent)

/-! Section: Task record and stopping conditions -/

/-- One entry of the round history (`iteration_log`). -/
structure IterationLog where
  iteration : Nat
  proposals : List RespRecord
  critiques : List RespRecord
  deriving DecidableEq, Repr

/-- The `Task` fields the claims observe.  `completed_at` models whether the
completion timestamp has been set (`datetime.now()` itself is opaque). -/
structure Task where
  description : String
  input_data : List (String × String)
  status : String
  results : Option RespContent
  history : List IterationLog
  error_info : Option String
  completed_at : Bool
  deriving DecidableEq, Repr

/-- The terminal statuses listed at pydagi.py:984. -/
def terminal_statuses : List String := ["completed", "failed", "converged", "failed_timeout"]

/-- Model of `Task.update_status` (pydagi.py:979-985): set the status, record the error
detail when one is given (Python truthiness: an empty string is not
recorded), and set the completion timestamp on entering a terminal status. -/
def Task.update_status (t : Task) (status : String) (error : Option String) : Task :=
  { t with
    status := status
    error_info := match error with
      | some e => if e = "" then t.error_info else some e
      | none => t.error_info
    completed_at := if status ∈ terminal_statuses then true else t.completed_at }

/-- The dictionary built by `IterationController._get_iteration_state`. -/
structure IterState where
  current_iteration : Nat
  history : List IterationLog
  task_status : String

/-- Model of `MaxIterationsCondition` (pydagi.py:1175-1189); construction requires a
positive integer. -/
structure MaxIterationsCondition where
  max_iterations : Nat
  deriving DecidableEq, Repr

def MaxIterationsCondition.make (max_iterations : Int) : Option MaxIterationsCondition :=
  if max_iterations ≤ 0 then none else some ⟨max_iterations.toNat⟩

def MaxIterationsCondition.check (c : MaxIterationsCondition) (st : IterState) : Bool :=
  c.max_iterations ≤ st.current_iteration

/-- Model of `prev_proposals[0].get("response_data", {}).get("proposal") or
prev_proposals[0].get("response_data", {}).get("revised_proposal", "")`
(pydagi.py:1224-1225), with Python `or` falling through on `None`/`""`. -/
def primary_text (r : RespContent) : String :=
  match r.proposal with
  | some s => if s = "" then r.revised_proposal.getD "" else s
  | none => r.revised_proposal.getD ""

/-- Model of `SolutionConvergenceCondition._calculate_similarity` (pydagi.py:1219-1234),
over exact rationals, with the string hash an explicit parameter (Python's
`hash` is an unspecified function of the string; equal strings hash equal). -/
def calculate_similarity (strHash : String → Int)
    (prev_proposals current_proposals : List RespRecord) : ℚ :=
  match prev_proposals, current_proposals with
  | [], _ => 0
  | _, [] => 0
  | p :: _, c :: _ =>
    let prev_text := primary_text p.response_data
    let curr_text := primary_text c.response_data
    if prev_text ≠ "" ∧ curr_text ≠ "" then
      if strHash prev_text = strHash curr_text then 1
      else max 0 (1 - |(prev_text.length : ℚ) - (curr_text.length : ℚ)| /
        max (prev_text.length : ℚ) (max (curr_text.length : ℚ) 1))
    else 0

/-- Model of `SolutionConvergenceCondition` (pydagi.py:1191-1217); construction
requires a threshold in [0,1]. -/
structure SolutionConvergenceCondition where
  threshold : ℚ
  deriving DecidableEq, Repr

def SolutionConvergenceCondition.make (threshold : ℚ) :
    Option SolutionConvergenceCondition :=
  if 0 ≤ threshold ∧ threshold ≤ 1 then some ⟨threshold⟩ else none

/-- Model of `SolutionConvergenceCondition.check` (pydagi.py:1200-1217): false with
fewer than one completed iteration or fewer than two history entries;
otherwise compare the similarity of the last two rounds' proposals against
the threshold. -/
def SolutionConvergenceCondition.check (c : SolutionConvergenceCondition)
    (strHash : String → Int) (st : IterState) : Bool :=
  if st.current_iteration < 1 then false
  else
    match st.history.reverse with
    | last :: prev :: _ =>
        decide (c.threshold ≤ calculate_similarity strHash prev.proposals last.proposals)
    | _ => false

/-! Section: The iteration loop -/

/-- Model of `resp_data.get("proposal") or resp_data.get("revised_proposal")`
(pydagi.py:1401, 1419), collapsed to `none` when the result is falsy, which
is exactly how every use site guards it (`if prop_content:` /
`if proposal_text:`). -/
def prop_content (r : RespContent) : Option String :=
  match r.proposal with
  | some s =>
      if s = "" then
        match r.revised_proposal with
        | some t => if t = "" then none else some t
        | none => none
      else some s
  | none =>
      match r.revised_proposal with
      | some t => if t = "" then none else some t
      | none => none

/-- Static configuration of one `IterationController` run: agent sets, the
stopping condition's `check`, the anonymity flag, the administrative round
ceiling, the display-id generator (round, index ↦ opaque id; Python uses
`f"proposal_{iteration}_{uuid4().hex[:6]}"`), and the per-call outcome
oracle (round, message kind, agent id ↦ outcome). -/
structure LoopConfig where
  proposer_agents : List Agent
  critic_agents : List Agent
  check : IterState → Bool
  anonymity : Bool
  absolute_max_iterations : Nat
  display_gen : Nat → Nat → String
  outcome : Nat → String → String → AgentOutcome

/-- Mutable state of `run_iteration_loop`, plus the instrumentation log of
every message the controller sent. -/
structure LoopState where
  task : Task
  iteration_num : Nat
  history : List IterationLog
  last_proposals_map : String → Option String
  sent_log : List SentMsg

/-- Construction of `critique_request_content["proposals"]` and
`anonymized_proposals_map` (pydagi.py:1413-1428): for each usable proposal,
emit its text plus either a fresh display id (anonymity on; author recorded
only in the internal map) or the author's agent id (anonymity off). -/
def build_critique_proposals (anonymity : Bool) (gen : Nat → String) (k : Nat) :
    List RespRecord → List PropInfo × List (String × String)
  | [] => ([], [])
  | r :: rs =>
    match prop_content r.response_data with
    | some t =>
        let rest := build_critique_proposals anonymity gen (k + 1) rs
        if anonymity then
          (⟨t, some (gen k), none⟩ :: rest.1, (gen k, r.agent_id) :: rest.2)
        else
          (⟨t, none, some r.agent_id⟩ :: rest.1, rest.2)
    | none => build_critique_proposals anonymity gen k rs

/-- The critique phase of one iteration (pydagi.py:1410-1448): skipped with no
critics, no usable proposals, or no eligible critics; otherwise fan out a
`CRITIQUE_REQUEST` to the eligible critics (critics minus this round's
authors, falling back to all critics when that exclusion empties the set). -/
def critique_phase (cfg : LoopConfig) (description : String) (n : Nat)
    (current_proposals : List RespRecord) : List RespRecord × List SentMsg :=
  if cfg.critic_agents.isEmpty then ([], [])
  else
    let built := build_critique_proposals cfg.anonymity (cfg.display_gen n) 0 current_proposals
    if built.1.isEmpty then ([], [])
    else
      let original_proposer_ids :=
        if cfg.anonymity then built.2.map (·.2)
        else built.1.filterMap (fun p => match p.agent_id with
          | some a => if a = "" then none else some a
          | none => none)
      let eligible_critics :=
        cfg.critic_agents.filter (fun a => !original_proposer_ids.contains a.agent_id)
      let eligible_critics :=
        if eligible_critics.isEmpty && !cfg.critic_agents.isEmpty
        then cfg.critic_agents else eligible_critics
      if eligible_critics.isEmpty then ([], [])
      else
        let res := collect_responses eligible_critics "CRITIQUE_REQUEST" "CRITIQUE"
          (fun _ => .critiqueRequest built.1 description) n (cfg.outcome n "CRITIQUE_REQUEST")
        (res.1, res.2.2)

/-- The proposal/revision phase of iteration `n` (pydagi.py:1347-1393).
`inl` is an early loop exit with the updated task; `inr` carries the
collected valid responses, failures, and sent messages. -/
def proposal_phase (cfg : LoopConfig) (st : LoopState) (n : Nat) :
    Task ⊕ (List RespRecord × List ErrRecord × List SentMsg) :=
  if n = 1 then
    .inr (collect_responses cfg.proposer_agents "TASK_PROMPT" "PROPOSAL"
      (fun _ => .taskPrompt st.task.description st.task.input_data) n
      (cfg.outcome n "TASK_PROMPT"))
  else
    -- `self.history[-1]` -- the loop reaches a revision round only with a
    -- non-empty history, so the `getD` default is never taken.
    let last_critiques_data := (st.history.getLast?.map (·.critiques)).getD []
    if last_critiques_data.isEmpty then
      .inl (st.task.update_status "completed" (some "Stopped: No critiques for revision."))
    else
      let critique_texts := last_critiques_data.map (fun c => (c.response_data.critique).getD "")
      let agents_to_prompt :=
        cfg.proposer_agents.filter (fun p => (st.last_proposals_map p.agent_id).isSome)
      if agents_to_prompt.isEmpty then
        .inl (st.task.update_status "failed" (some "No agents for revision."))
      else
        .inr (collect_responses agents_to_prompt "REVISION_REQUEST" "PROPOSAL"
          (fun aid => .revisionRequest ((st.last_proposals_map aid).getD "")
            critique_texts st.task.description)
          n (cfg.outcome n "REVISION_REQUEST"))

/-- Update of `last_proposals_map` (pydagi.py:1398-1403): every valid record
with a truthy agent id and usable proposal text overwrites that agent's
entry, in list order. -/
def update_last_proposals (m : String → Option String) :
    List RespRecord → (String → Option String)
  | [] => m
  | r :: rs =>
      let m' := match prop_content r.response_data with
        | some t =>
            if r.agent_id = "" then m
            else (fun x => if x = r.agent_id then some t else m x)
        | none => m
      update_last_proposals m' rs

/-- Result of one pass of the `while True` body: either the loop breaks with
this state, or it continues from it. -/
inductive LoopStep where
  | done (st : LoopState)
  | next (st : LoopState)

/-- One pass of the round loop body of `run_iteration_loop`
(pydagi.py:1342-1466): increment the round counter, run the
proposal/revision phase, update the last-known-good map, fail on an empty
valid set, run the critique phase, append the round entry, then evaluate the
stopping condition and the administrative ceiling. -/
def run_one_iteration (cfg : LoopConfig) (st : LoopState) : LoopStep :=
  let n := st.iteration_num + 1
  match proposal_phase cfg st n with
  | .inl t => .done { st with task := t, iteration_num := n }
  | .inr (current_proposals, _errors, sent1) =>
      let map' := update_last_proposals st.last_proposals_map current_proposals
      let st1 := { st with
        iteration_num := n
        last_proposals_map := map'
        sent_log := st.sent_log ++ sent1 }
      if current_proposals.isEmpty then
        .done { st1 with task := (st1.task.update_status "failed"
          (some ("No valid output in iteration " ++ toString n ++ "."))) }
      else
        let cp := critique_phase cfg st1.task.description n current_proposals
        let iteration_log : IterationLog := ⟨n, current_proposals, cp.1⟩
        let history' := st1.history ++ [iteration_log]
        let task' := { st1.task with history := history' }
        let st2 := { st1 with
          history := history'
          task := task'
          sent_log := st1.sent_log ++ cp.2 }
        if cfg.check ⟨n, history', task'.status⟩ then
          .done { st2 with task := task'.update_status "converged" none }
        else if cfg.absolute_max_iterations ≤ n then
          .done { st2 with task := (task'.update_status "completed"
            (some "Reached max iterations.")) }
        else
          .next st2

/-- Model of `IterationController._select_final_result` (pydagi.py:1490-1499): the
first round, scanning from the most recent backward, with a non-empty
proposal list; its first proposal's `response_data`; `none` otherwise. -/
def select_final_result (history : List IterationLog) : Option RespContent :=
  match history.reverse.find? (fun i => !i.proposals.isEmpty) with
  | some l =>
      match l.proposals with
      | p :: _ => some p.response_data
      | [] => none
  | none => none

/-- The post-loop epilogue (pydagi.py:1469-1475): unless the task failed,
store the selected final result and the history, and if the status is still
`running` mark it `completed`. -/
def finish_loop (t : Task) (history : List IterationLog) : Task :=
  if t.status = "failed" ∨ t.status = "failed_timeout" then t
  else
    let t1 := { t with results := select_final_result history, history := history }
    if t1.status = "running" then t1.update_status "completed" (some "Finished loop.")
    else t1

/-- Fuel-indexed iteration of the loop body; `run_iteration_loop` supplies
enough fuel that the zero case is never reached (the administrative ceiling
bounds the number of passes). -/
def run_loop_aux (cfg : LoopConfig) : Nat → LoopState → LoopState
  | 0, st => st
  | fuel + 1, st =>
      match run_one_iteration cfg st with
      | .done st' => st'
      | .next st' => run_loop_aux cfg fuel st'

/-- Model of `IterationController.run_iteration_loop` (pydagi.py:1325-1487) for a task
in status `running`: the pre-round-1 stopping-condition check, then the round
loop, then the epilogue.  Returns the final task and the log of every sent
message. -/
def run_iteration_loop (cfg : LoopConfig) (task0 : Task) : Task × List SentMsg :=
  if cfg.check ⟨0, [], task0.status⟩ then
    (task0.update_status "completed" none, [])
  else
    let st0 : LoopState := ⟨task0, 0, [], fun _ => none, []⟩
    let stF := run_loop_aux cfg (cfg.absolute_max_iterations + 1) st0
    (finish_loop stF.task stF.history, stF.sent_log)

/-- The caller-imposed wall-clock budget check of `DAGINetwork.run_task`
(pydagi.py:1631-1636): flip a still-`running` task to `failed_timeout`. -/
def run_task_timeout_update (t : Task) : Task :=
  if t.status = "running" then t.update_status "failed_timeout" (some "Execution timed out.")
  else t

/-! Section: Characterization of the fan-out/gather -/

/-- A dispatched call produced a response of the phase's expected kind. -/
def is_valid_reply (expected : String) : AgentOutcome → Bool
  | .reply t _ => t = expected
  | _ => false

lemma get_response_inl_eq (expected aid : String) (o : AgentOutcome) :
    resp_ok (get_response expected aid o)
    = (match o with
       | .reply t c => if t = expected then some (RespRecord.mk aid c) else none
       | _ => none) := by
  cases o with
  | reply t c =>
    by_cases ht : t = expected
    · simp [get_response, ht, resp_ok]
    · simp only [get_response, if_neg ht]
      split_ifs <;> rfl
  | noReply => rfl
  | timeout => rfl
  | fault e => rfl

lemma get_response_inr_agent (expected aid : String) (o : AgentOutcome)
    (e : ErrRecord) (h : get_response expected aid o = .inr e) : e.agent_id = aid := by
  cases o with
  | reply t c =>
    rw [get_response] at h
    split_ifs at h
    · exact (Sum.inr.inj h) ▸ rfl
    · exact (Sum.inr.inj h) ▸ rfl
  | noReply => rw [get_response] at h; exact (Sum.inr.inj h) ▸ rfl
  | timeout => rw [get_response] at h; exact (Sum.inr.inj h) ▸ rfl
  | fault e' => rw [get_response] at h; exact (Sum.inr.inj h) ▸ rfl

lemma get_response_inl_iff (expected aid : String) (o : AgentOutcome) :
    (∃ v, get_response expected aid o = .inl v) ↔ is_valid_reply expected o = true := by
  cases o with
  | reply t c =>
    by_cases ht : t = expected
    · simp [get_response, ht, is_valid_reply]
    · simp only [get_response, if_neg ht, is_valid_reply]
      constructor
      · rintro ⟨v, hv⟩
        split at hv <;> simp_all
      · intro h; exact absurd (of_decide_eq_true h) ht
  | noReply => simp [get_response, is_valid_reply]
  | timeout => simp [get_response, is_valid_reply]
  | fault e => simp [get_response, is_valid_reply]

lemma sum_length_filterMap_sum (l : List (RespRecord ⊕ ErrRecord)) :
    (l.filterMap resp_ok).length + (l.filterMap resp_err).length = l.length := by
  induction l with
  | nil => rfl
  | cons x xs ih =>
    cases x <;> simp [List.filterMap_cons, resp_ok, resp_err] <;> omega

lemma collect_errors_agents (agents : List Agent) (expected : String)
    (outcome : String → AgentOutcome) :
    (agents.filterMap (fun a =>
        resp_err (get_response expected a.agent_id (outcome a.agent_id)))).map (·.agent_id)
    = (agents.filter (fun a => !is_valid_reply expected (outcome a.agent_id))).map (·.agent_id) := by
  induction agents with
  | nil => rfl
  | cons a rest ih =>
    by_cases hv : is_valid_reply expected (outcome a.agent_id)
    · obtain ⟨v, hvv⟩ := (get_response_inl_iff expected a.agent_id (outcome a.agent_id)).mpr hv
      simp [List.filterMap_cons, hvv, List.filter_cons, hv, ih]
    · cases hres : get_response expected a.agent_id (outcome a.agent_id) with
      | inl v =>
        exact absurd ((get_response_inl_iff expected a.agent_id (outcome a.agent_id)).mp
          ⟨v, hres⟩) hv
      | inr e =>
        have ha := get_response_inr_agent expected a.agent_id (outcome a.agent_id) e hres
        simp [List.filterMap_cons, hres, List.filter_cons, hv, ih, ha]

/-- C1 -- Phase fan-out/gather: the collected valid set is exactly the
kind-matching responses in recipient order; every other outcome (timeout,
PROCESSING_ERROR reply, kind mismatch, missing reply, dispatch fault) yields
one per-agent failure record carrying that agent's id; every recipient is
accounted for, so the collection is total (no abort, no raise); and in the
round loop, failures make the task `failed` exactly when the proposal
phase's valid set is empty. -/
theorem phase_gather_correct :
    (∀ (agents : List Agent) (mt expected : String) (cf : String → MsgContent)
        (it : Nat) (oracle : String → AgentOutcome),
      (collect_responses agents mt expected cf it oracle).1 =
          agents.filterMap (fun a => match oracle a.agent_id with
            | .reply t c => if t = expected then some (RespRecord.mk a.agent_id c) else none
            | _ => none)
      ∧ ((collect_responses agents mt expected cf it oracle).2.1.map (·.agent_id) =
          (agents.filter (fun a => !is_valid_reply expected (oracle a.agent_id))).map (·.agent_id))
      ∧ (collect_responses agents mt expected cf it oracle).1.length
          + (collect_responses agents mt expected cf it oracle).2.1.length = agents.length)
    ∧ (∀ (cfg : LoopConfig) (st : LoopState) (v : List RespRecord)
        (e : List ErrRecord) (s : List SentMsg),
      proposal_phase cfg st (st.iteration_num + 1) = .inr (v, e, s) →
      (v = [] → ∃ st', run_one_iteration cfg st = .done st' ∧ st'.task.status = "failed")
      ∧ (v ≠ [] → ∀ st', run_one_iteration cfg st = .done st' → st'.task.status ≠ "failed")) := by
  constructor
  · intro agents mt expected cf it oracle
    refine ⟨?_, ?_, ?_⟩
    · rw [collect_responses]
      simp only [List.filterMap_map]
      congr 1
      funext a
      exact get_response_inl_eq expected a.agent_id (oracle a.agent_id)
    · rw [collect_responses]
      simp only [List.filterMap_map]
      simpa [Function.comp] using collect_errors_agents agents expected oracle
    · rw [collect_responses]
      simp only
      have h := sum_length_filterMap_sum
        (agents.map (fun a => get_response expected a.agent_id (oracle a.agent_id)))
      rw [List.length_map] at h
      exact h
  · intro cfg st v e s hp
    constructor
    · intro hv
      subst hv
      have hrun : run_one_iteration cfg st = .done
          { st with
            task := (st.task.update_status "failed"
              (some ("No valid output in iteration "
                ++ toString (st.iteration_num + 1) ++ "."))),
            iteration_num := st.iteration_num + 1,
            last_proposals_map := update_last_proposals st.last_proposals_map [],
            sent_log := st.sent_log ++ s } := by
        rw [run_one_iteration, hp]
        rfl
      exact ⟨_, hrun, by simp [Task.update_status]⟩
    · intro hv st' hdone
      rw [run_one_iteration, hp] at hdone
      simp only [List.isEmpty_iff] at hdone
      rw [if_neg hv] at hdone
      split at hdone
      · cases hdone
        simp [Task.update_status]
      · split at hdone
        · cases hdone
          simp [Task.update_status]
        · cases hdone

/-- Witness for C1: five agents where two time out, one replies with the
wrong kind, one replies PROCESSING_ERROR, one succeeds -- one valid
response, four failures, nobody lost; and a phase whose valid set is empty
fails the task. -/
theorem phase_gather_correct_witness :
    ((collect_responses
        [⟨"a1", []⟩, ⟨"a2", []⟩, ⟨"a3", []⟩, ⟨"a4", []⟩, ⟨"a5", []⟩]
        "TASK_PROMPT" "PROPOSAL" (fun _ => .taskPrompt "t" []) 1
        (fun aid =>
          if aid = "a1" then .timeout
          else if aid = "a2" then .timeout
          else if aid = "a3" then .reply "CRITIQUE" ⟨none, none, some "x", none⟩
          else if aid = "a4" then .reply "PROCESSING_ERROR" ⟨none, none, none, some "boom"⟩
          else .reply "PROPOSAL" ⟨some "ok", none, none, none⟩)).1.length = 1
      ∧ (collect_responses
        [⟨"a1", []⟩, ⟨"a2", []⟩, ⟨"a3", []⟩, ⟨"a4", []⟩, ⟨"a5", []⟩]
        "TASK_PROMPT" "PROPOSAL" (fun _ => .taskPrompt "t" []) 1
        (fun aid =>
          if aid = "a1" then .timeout
          else if aid = "a2" then .timeout
          else if aid = "a3" then .reply "CRITIQUE" ⟨none, none, some "x", none⟩
          else if aid = "a4" then .reply "PROCESSING_ERROR" ⟨none, none, none, some "boom"⟩
          else .reply "PROPOSAL" ⟨some "ok", none, none, none⟩)).2.1.length = 4)
    ∧ ∃ st', run_one_iteration
        ⟨[⟨"a1", []⟩], [], fun _ => false, true, 20,
          fun _ _ => "d", fun _ _ _ => .timeout⟩
        ⟨⟨"desc", [], "running", none, [], none, false⟩, 0, [], fun _ => none, []⟩
        = .done st' ∧ st'.task.status = "failed" := by
  constructor
  · exact ⟨by rfl, by rfl⟩
  · exact (phase_gather_correct.2
      ⟨[⟨"a1", []⟩], [], fun _ => false, true, 20,
        fun _ _ => "d", fun _ _ _ => .timeout⟩
      ⟨⟨"desc", [], "running", none, [], none, false⟩, 0, [], fun _ => none, []⟩
      [] [⟨"a1", "Timeout"⟩]
      [⟨"a1", "TASK_PROMPT", .taskPrompt "desc" [], 1⟩] rfl).1 rfl

/-! Section: Early termination without critiques (C2) -/

/-- Oracle for the 1-proposer / 0-critic scenario: the proposer answers the
round-1 `TASK_PROMPT` with a proposal; nothing else is ever asked. -/
def c2_scenario_outcome : Nat → String → String → AgentOutcome := fun n mt aid =>
  if n = 1 ∧ mt = "TASK_PROMPT" ∧ aid = "p1" then
    .reply "PROPOSAL" ⟨some "Round one proposal", none, none, none⟩
  else .noReply

/-- One proposer, no critics, fixed-round stopping condition `max_rounds = 3`,
default anonymity and ceiling. -/
def c2_scenario_config : LoopConfig :=
  { proposer_agents := [⟨"p1", []⟩]
    critic_agents := []
    check := MaxIterationsCondition.check ⟨3⟩
    anonymity := true
    absolute_max_iterations := 20
    display_gen := fun n k => "proposal_" ++ toString n ++ "_" ++ toString k
    outcome := c2_scenario_outcome }

def c2_scenario_task : Task := ⟨"Describe the widget", [], "running", none, [], none, false⟩

/-- C2 counterexample -- in the 1-proposer / 0-critic / `max_rounds = 3`
scenario the loop does stop early with status `completed`, but the recorded
reason is the source's string "Stopped: No critiques for revision.", not the
claimed "no critiques to revise against". -/
theorem no_critiques_reason_counterexample :
    (run_iteration_loop c2_scenario_config c2_scenario_task).1.status = "completed"
    ∧ (run_iteration_loop c2_scenario_config c2_scenario_task).1.error_info
        ≠ some "no critiques to revise against" := by
  exact ⟨rfl, by decide⟩

/-- C2 (amended) -- whenever a revision round starts and the previous round
recorded zero critiques, the loop terminates at once with status `completed`
and reason "Stopped: No critiques for revision." (instead of repeating), the
state otherwise untouched; concretely, the task with 1 proposer, 0 critics
and `max_rounds = 3` stops after round 1 with status `completed` and result
equal to round 1's proposal. -/
theorem no_critiques_early_termination :
    (∀ (cfg : LoopConfig) (st : LoopState) (last : IterationLog),
        1 ≤ st.iteration_num →
        st.history.getLast? = some last →
        last.critiques = [] →
        run_one_iteration cfg st = .done { st with
          task := (st.task.update_status "completed"
            (some "Stopped: No critiques for revision.")),
          iteration_num := st.iteration_num + 1 })
    ∧ (run_iteration_loop c2_scenario_config c2_scenario_task).1.status = "completed"
    ∧ (run_iteration_loop c2_scenario_config c2_scenario_task).1.error_info
        = some "Stopped: No critiques for revision."
    ∧ (run_iteration_loop c2_scenario_config c2_scenario_task).1.history.length = 1
    ∧ (run_iteration_loop c2_scenario_config c2_scenario_task).1.results
        = some ⟨some "Round one proposal", none, none, none⟩
    ∧ (run_iteration_loop c2_scenario_config c2_scenario_task).1.history
        = [⟨1, [⟨"p1", ⟨some "Round one proposal", none, none, none⟩⟩], []⟩] := by
  refine ⟨?_, rfl, rfl, rfl, rfl, rfl⟩
  intro cfg st last h1 hlast hcrit
  have hn : st.iteration_num + 1 ≠ 1 := by omega
  have hphase : proposal_phase cfg st (st.iteration_num + 1)
      = .inl (st.task.update_status "completed"
          (some "Stopped: No critiques for revision.")) := by
    rw [proposal_phase, if_neg hn, hlast]
    simp [hcrit]
  rw [run_one_iteration, hphase]

/-- A loop state sitting at the start of round 2 whose round-1 entry has no
critiques. -/
def c2_nc_state : LoopState :=
  ⟨c2_scenario_task, 1,
    [⟨1, [⟨"p1", ⟨some "Round one proposal", none, none, none⟩⟩], []⟩],
    fun _ => none, []⟩

/-- Witness for C2: the early-termination step evaluated at a concrete state. -/
theorem no_critiques_early_termination_witness :
    run_one_iteration c2_scenario_config c2_nc_state = .done { c2_nc_state with
      task := (c2_nc_state.task.update_status "completed"
        (some "Stopped: No critiques for revision.")),
      iteration_num := 2 } :=
  no_critiques_early_termination.1 c2_scenario_config c2_nc_state
    ⟨1, [⟨"p1", ⟨some "Round one proposal", none, none, none⟩⟩], []⟩
    (by decide) rfl rfl

/-! Section: Final-result selection (C3) -/

/-- Oracle for the 2-proposer / 1-critic / `max_rounds = 2` scenario:
round 1 yields two proposals and one critique, round 2 yields a revision
from each proposer (and another critique before the stopping check). -/
def c3_scenario_outcome : Nat → String → String → AgentOutcome := fun n mt aid =>
  if n = 1 ∧ mt = "TASK_PROMPT" then
    (if aid = "p1" then .reply "PROPOSAL" ⟨some "draft A1", none, none, none⟩
     else if aid = "p2" then .reply "PROPOSAL" ⟨some "draft A2", none, none, none⟩
     else .noReply)
  else if n = 1 ∧ mt = "CRITIQUE_REQUEST" ∧ aid = "c1" then
    .reply "CRITIQUE" ⟨none, none, some "critique of both drafts", none⟩
  else if n = 2 ∧ mt = "REVISION_REQUEST" then
    (if aid = "p1" then .reply "PROPOSAL" ⟨none, some "revised B1", none, none⟩
     else if aid = "p2" then .reply "PROPOSAL" ⟨none, some "revised B2", none, none⟩
     else .noReply)
  else if n = 2 ∧ mt = "CRITIQUE_REQUEST" ∧ aid = "c1" then
    .reply "CRITIQUE" ⟨none, none, some "second critique", none⟩
  else .noReply

def c3_scenario_config : LoopConfig :=
  { proposer_agents := [⟨"p1", []⟩, ⟨"p2", []⟩]
    critic_agents := [⟨"c1", []⟩]
    check := MaxIterationsCondition.check ⟨2⟩
    anonymity := true
    absolute_max_iterations := 20
    display_gen := fun n k => "proposal_" ++ toString n ++ "_" ++ toString k
    outcome := c3_scenario_outcome }

def c3_scenario_task : Task := ⟨"Write the document", [], "running", none, [], none, false⟩

/-- C3 counterexample -- in the 2-proposer / 1-critic / `max_rounds = 2`
scenario the final status is `converged` (the fixed-round stopping condition
fires after round 2, and a post-round stopping-condition hit is recorded as
`converged`), not `completed` as claimed. -/
theorem round_cap_status_counterexample :
    (run_iteration_loop c3_scenario_config c3_scenario_task).1.status = "converged"
    ∧ (run_iteration_loop c3_scenario_config c3_scenario_task).1.status ≠ "completed" := by
  exact ⟨rfl, by decide⟩

lemma select_final_result_eq (h : List IterationLog) :
    select_final_result h = (h.reverse.find? (fun l => !l.proposals.isEmpty)).bind
      (fun l => l.proposals.head?.map (·.response_data)) := by
  rw [select_final_result]
  cases hf : h.reverse.find? (fun l => !l.proposals.isEmpty) with
  | none => rfl
  | some l =>
    cases hp : l.proposals with
    | nil =>
      have := List.find?_some hf
      rw [hp] at this
      simp at this
    | cons p rest => simp [hp]

lemma finish_loop_results (t : Task) (h : List IterationLog)
    (hstat : (finish_loop t h).status = "completed" ∨ (finish_loop t h).status = "converged") :
    (finish_loop t h).results = select_final_result h ∧ (finish_loop t h).history = h := by
  rw [finish_loop] at hstat ⊢
  by_cases hfail : t.status = "failed" ∨ t.status = "failed_timeout"
  · rw [if_pos hfail] at hstat ⊢
    rcases hfail with hf | hf <;> rcases hstat with hs | hs <;> rw [hf] at hs <;>
      exact absurd hs (by decide)
  · rw [if_neg hfail] at hstat ⊢
    simp only at hstat ⊢
    by_cases hrun : t.status = "running"
    · simp [hrun, Task.update_status]
    · simp [hrun]

/-- C3 (amended) -- for every run ending `completed` or `converged` from a
fresh task, the final result is obtained by scanning the history from the
most recent round backward for the first round with at least one proposal
and taking its first-listed proposal's payload (empty if no round has one);
in the 2-proposer / 1-critic / `max_rounds = 2` scenario the run ends after
round 2 with status `converged` (not `completed`: the post-round
stopping-condition hit is recorded as `converged`) and the result equals
round 2's first proposal payload. -/
theorem final_result_selection :
    (∀ (cfg : LoopConfig) (task0 : Task),
        task0.results = none → task0.history = [] →
        ((run_iteration_loop cfg task0).1.status = "completed"
          ∨ (run_iteration_loop cfg task0).1.status = "converged") →
        (run_iteration_loop cfg task0).1.results =
          (((run_iteration_loop cfg task0).1.history.reverse.find?
              (fun l => !l.proposals.isEmpty)).bind
            (fun l => l.proposals.head?.map (·.response_data))))
    ∧ (run_iteration_loop c3_scenario_config c3_scenario_task).1.status = "converged"
    ∧ (run_iteration_loop c3_scenario_config c3_scenario_task).1.results
        = some ⟨none, some "revised B1", none, none⟩
    ∧ ((run_iteration_loop c3_scenario_config c3_scenario_task).1.history.map
        (fun l => (l.iteration, l.proposals.length, l.critiques.length))) = [(1, 2, 1), (2, 2, 1)]
    ∧ (run_iteration_loop c3_scenario_config c3_scenario_task).1.results
        = ((run_iteration_loop c3_scenario_config c3_scenario_task).1.history.getLast?.bind
            (fun l => l.proposals.head?.map (·.response_data))) := by
  refine ⟨?_, rfl, rfl, rfl, rfl⟩
  intro cfg task0 hres hhist hstat
  by_cases hpre : cfg.check ⟨0, [], task0.status⟩
  · simp only [run_iteration_loop, if_pos hpre] at hstat ⊢
    simp [Task.update_status, hres, hhist]
  · simp only [run_iteration_loop, if_neg hpre] at hstat ⊢
    obtain ⟨h1, h2⟩ := finish_loop_results _ _ hstat
    rw [h1, h2, select_final_result_eq]

/-- Witness for C3: the selection rule evaluated on the concrete scenario
run. -/
theorem final_result_selection_witness :
    (run_iteration_loop c3_scenario_config c3_scenario_task).1.results =
      (((run_iteration_loop c3_scenario_config c3_scenario_task).1.history.reverse.find?
          (fun l => !l.proposals.isEmpty)).bind
        (fun l => l.proposals.head?.map (·.response_data))) :=
  final_result_selection.1 c3_scenario_config c3_scenario_task rfl rfl (Or.inr rfl)

/-! Section: Convergence-by-similarity stopping condition (C6) -/

/-- The primary proposal text of a round's proposal list: the first record's
extracted text, or `""` when the round has no usable proposal. -/
def primary_text_of : List RespRecord → String
  | [] => ""
  | p :: _ => primary_text p.response_data

/-- C6 -- The convergence condition: `check` is false with fewer than two
completed rounds; with two or more rounds (and the round counter matching
the history length, as the controller always passes it) it is true iff the
similarity of the last two rounds' primary proposal texts reaches the
threshold; the similarity is 0 when either round has no usable (non-empty)
primary text; byte-identical usable texts score exactly 1 (so any threshold
at most 1 is met); and construction succeeds exactly for thresholds in
[0,1]. -/
theorem convergence_condition_correct :
    (∀ (c : SolutionConvergenceCondition) (h : String → Int) (st : IterState),
        st.history.length < 2 → c.check h st = false)
    ∧ (∀ (c : SolutionConvergenceCondition) (h : String → Int) (st : IterState)
        (last prev : IterationLog) (rest : List IterationLog),
        st.current_iteration = st.history.length →
        st.history.reverse = last :: prev :: rest →
        (c.check h st = true ↔
          c.threshold ≤ calculate_similarity h prev.proposals last.proposals))
    ∧ (∀ (h : String → Int) (prev curr : List RespRecord),
        primary_text_of prev = "" ∨ primary_text_of curr = "" →
        calculate_similarity h prev curr = 0)
    ∧ (∀ (h : String → Int) (prev curr : List RespRecord) (t : String),
        t ≠ "" → primary_text_of prev = t → primary_text_of curr = t →
        calculate_similarity h prev curr = 1)
    ∧ (∀ t : ℚ, (SolutionConvergenceCondition.make t).isSome ↔ 0 ≤ t ∧ t ≤ 1) := by
  refine ⟨?_, ?_, ?_, ?_, ?_⟩
  · intro c h st hlen
    rw [SolutionConvergenceCondition.check]
    split_ifs with hit
    · rfl
    · cases hrev : st.history.reverse with
      | nil => rfl
      | cons a t =>
        cases t with
        | nil => rfl
        | cons b t2 =>
          exfalso
          have := congrArg List.length hrev
          simp at this
          omega
  · intro c h st last prev rest hiter hrev
    have hlen : st.history.length = rest.length + 2 := by
      have := congrArg List.length hrev
      simpa using this
    have hit : ¬ st.current_iteration < 1 := by omega
    rw [SolutionConvergenceCondition.check, if_neg hit, hrev]
    simp
  · intro h prev curr hor
    cases prev with
    | nil => cases curr <;> rfl
    | cons p ps =>
      cases curr with
      | nil => rfl
      | cons c cs =>
        simp only [primary_text_of] at hor
        rw [calculate_similarity]
        rcases hor with h1 | h1 <;> simp [h1]
  · intro h prev curr t ht h1 h2
    cases prev with
    | nil => rw [primary_text_of] at h1; exact absurd h1.symm ht
    | cons p ps =>
      cases curr with
      | nil => rw [primary_text_of] at h2; exact absurd h2.symm ht
      | cons c cs =>
        simp only [primary_text_of] at h1 h2
        rw [calculate_similarity]
        rw [h1, h2]
        simp [ht]
  · intro t
    rw [SolutionConvergenceCondition.make]
    split_ifs with hin
    · simpa using hin
    · simpa using hin

/-- Witness for C6: the parts evaluated at concrete states -- one round is
never enough; two byte-identical rounds converge at threshold 0.95; an empty
round scores 0; construction accepts 0.95. -/
theorem convergence_condition_correct_witness :
    ((SolutionConvergenceCondition.mk ((95 : ℚ)/100)).check
        (fun s => (s.length : Int)) ⟨1, [⟨1, [⟨"p1", ⟨some "x", none, none, none⟩⟩], []⟩], "running"⟩ = false)
    ∧ ((SolutionConvergenceCondition.mk ((95 : ℚ)/100)).check
        (fun s => (s.length : Int))
        ⟨2, [⟨1, [⟨"p1", ⟨some "same text", none, none, none⟩⟩], []⟩,
             ⟨2, [⟨"p1", ⟨some "same text", none, none, none⟩⟩], []⟩], "running"⟩ = true
        ↔ ((95 : ℚ)/100) ≤ calculate_similarity (fun s => (s.length : Int))
            [⟨"p1", ⟨some "same text", none, none, none⟩⟩]
            [⟨"p1", ⟨some "same text", none, none, none⟩⟩])
    ∧ calculate_similarity (fun s => (s.length : Int)) []
        [⟨"p1", ⟨some "x", none, none, none⟩⟩] = 0
    ∧ calculate_similarity (fun s => (s.length : Int))
        [⟨"p1", ⟨some "same text", none, none, none⟩⟩]
        [⟨"p2", ⟨none, some "same text", none, none⟩⟩] = 1
    ∧ ((SolutionConvergenceCondition.make ((95 : ℚ)/100)).isSome
        ↔ 0 ≤ ((95 : ℚ)/100) ∧ ((95 : ℚ)/100) ≤ 1) := by
  refine ⟨?_, ?_, ?_, ?_, ?_⟩
  · exact convergence_condition_correct.1 ⟨(95 : ℚ)/100⟩ (fun s => (s.length : Int))
      ⟨1, [⟨1, [⟨"p1", ⟨some "x", none, none, none⟩⟩], []⟩], "running"⟩ (by decide)
  · exact convergence_condition_correct.2.1 ⟨(95 : ℚ)/100⟩ (fun s => (s.length : Int))
      ⟨2, [⟨1, [⟨"p1", ⟨some "same text", none, none, none⟩⟩], []⟩,
           ⟨2, [⟨"p1", ⟨some "same text", none, none, none⟩⟩], []⟩], "running"⟩
      ⟨2, [⟨"p1", ⟨some "same text", none, none, none⟩⟩], []⟩
      ⟨1, [⟨"p1", ⟨some "same text", none, none, none⟩⟩], []⟩
      [] rfl rfl
  · exact convergence_condition_correct.2.2.1 (fun s => (s.length : Int)) _ _ (Or.inl rfl)
  · exact convergence_condition_correct.2.2.2.1 (fun s => (s.length : Int))
      [⟨"p1", ⟨some "same text", none, none, none⟩⟩]
      [⟨"p2", ⟨none, some "same text", none, none⟩⟩]
      "same text" (by decide) rfl rfl
  · exact convergence_condition_correct.2.2.2.2 ((95 : ℚ)/100)

/-! Section: Anonymization of critique requests (C7) -/

/-- The shape invariant of a sent message: any `CRITIQUE_REQUEST` payload
lists proposals that carry a display id and no author id when anonymization
is on, and an author id and no display id when it is off.  The
display-id-to-author map is a controller-local value (`built.2`); no
`MsgContent` constructor can carry it. -/
def critique_request_shape (anonymity : Bool) (m : SentMsg) : Prop :=
  m.message_type = "CRITIQUE_REQUEST" →
    ∃ props desc, m.content = .critiqueRequest props desc
      ∧ (anonymity = true →
          ∀ p ∈ props, p.agent_id = none ∧ ∃ d, p.display_id = some d)
      ∧ (anonymity = false →
          ∀ p ∈ props, p.display_id = none ∧ p.agent_id.isSome)

lemma build_critique_proposals_anon (gen : Nat → String) (records : List RespRecord) :
    ∀ (k : Nat), ∀ p ∈ (build_critique_proposals true gen k records).1,
      p.agent_id = none ∧ ∃ d, p.display_id = some d := by
  induction records with
  | nil => intro k p hp; simp [build_critique_proposals] at hp
  | cons r rs ih =>
    intro k p hp
    rw [build_critique_proposals] at hp
    cases hpc : prop_content r.response_data with
    | none => rw [hpc] at hp; exact ih k p hp
    | some t =>
      rw [hpc] at hp
      simp only [if_pos rfl] at hp
      rcases List.mem_cons.mp hp with rfl | hp
      · exact ⟨rfl, gen k, rfl⟩
      · exact ih (k + 1) p hp

lemma build_critique_proposals_attributed (gen : Nat → String) (records : List RespRecord) :
    ∀ (k : Nat),
      (build_critique_proposals false gen k records).2 = []
      ∧ ∀ p ∈ (build_critique_proposals false gen k records).1,
          p.display_id = none ∧ ∃ r ∈ records, p.agent_id = some r.agent_id
            ∧ prop_content r.response_data = some p.proposal := by
  induction records with
  | nil =>
    intro k
    exact ⟨rfl, by intro p hp; simp [build_critique_proposals] at hp⟩
  | cons r rs ih =>
    intro k
    constructor
    · rw [build_critique_proposals]
      cases hpc : prop_content r.response_data with
      | none => exact (ih k).1
      | some t => simpa using (ih (k + 1)).1
    · intro p hp
      rw [build_critique_proposals] at hp
      cases hpc : prop_content r.response_data with
      | none =>
        rw [hpc] at hp
        obtain ⟨hd, r', hr', hrest⟩ := (ih k).2 p hp
        exact ⟨hd, r', List.mem_cons_of_mem _ hr', hrest⟩
      | some t =>
        rw [hpc] at hp
        simp only [Bool.false_eq_true, if_false] at hp
        rcases List.mem_cons.mp hp with rfl | hp
        · exact ⟨rfl, r, List.mem_cons_self _ _, rfl, hpc⟩
        · obtain ⟨hd, r', hr', hrest⟩ := (ih (k + 1)).2 p hp
          exact ⟨hd, r', List.mem_cons_of_mem _ hr', hrest⟩

lemma collect_critreq_shape (cfg : LoopConfig) (desc : String) (n : Nat)
    (cur : List RespRecord) (eligible : List Agent) :
    ∀ m ∈ (collect_responses eligible "CRITIQUE_REQUEST" "CRITIQUE"
        (fun _ => .critiqueRequest
          (build_critique_proposals cfg.anonymity (cfg.display_gen n) 0 cur).1 desc)
        n (cfg.outcome n "CRITIQUE_REQUEST")).2.2,
      critique_request_shape cfg.anonymity m := by
  intro m hm
  simp only [collect_responses] at hm
  obtain ⟨a, -, rfl⟩ := List.mem_map.mp hm
  intro _
  refine ⟨(build_critique_proposals cfg.anonymity (cfg.display_gen n) 0 cur).1, desc,
    rfl, ?_, ?_⟩
  · intro hanon
    rw [hanon]
    exact build_critique_proposals_anon (cfg.display_gen n) cur 0
  · intro hanon
    rw [hanon]
    intro p hp
    obtain ⟨hd, r, -, ha, -⟩ :=
      (build_critique_proposals_attributed (cfg.display_gen n) cur 0).2 p hp
    exact ⟨hd, by rw [ha]; rfl⟩

lemma critique_phase_cases (cfg : LoopConfig) (desc : String) (n : Nat)
    (cur : List RespRecord) :
    (critique_phase cfg desc n cur).2 = [] ∨
    ∃ eligible, (critique_phase cfg desc n cur).2
      = (collect_responses eligible "CRITIQUE_REQUEST" "CRITIQUE"
          (fun _ => .critiqueRequest
            (build_critique_proposals cfg.anonymity (cfg.display_gen n) 0 cur).1 desc)
          n (cfg.outcome n "CRITIQUE_REQUEST")).2.2 := by
  simp only [critique_phase]
  split_ifs <;> first | exact Or.inl rfl | exact Or.inr ⟨_, rfl⟩

lemma critique_phase_sent_shape (cfg : LoopConfig) (desc : String) (n : Nat)
    (cur : List RespRecord) :
    ∀ m ∈ (critique_phase cfg desc n cur).2, critique_request_shape cfg.anonymity m := by
  intro m hm
  rcases critique_phase_cases cfg desc n cur with h | ⟨eligible, h⟩
  · rw [h] at hm
    simp at hm
  · rw [h] at hm
    exact collect_critreq_shape cfg desc n cur eligible m hm

lemma collect_sent_msgtype (A : List Agent) (mt expected : String)
    (cf : String → MsgContent) (it : Nat) (orc : String → AgentOutcome) :
    ∀ m ∈ (collect_responses A mt expected cf it orc).2.2, m.message_type = mt := by
  intro m hm
  simp only [collect_responses] at hm
  obtain ⟨a, -, rfl⟩ := List.mem_map.mp hm
  rfl

lemma proposal_phase_cases (cfg : LoopConfig) (st : LoopState) (n : Nat) :
    (∃ t, proposal_phase cfg st n = .inl t)
    ∨ proposal_phase cfg st n
        = .inr (collect_responses cfg.proposer_agents "TASK_PROMPT" "PROPOSAL"
            (fun _ => .taskPrompt st.task.description st.task.input_data) n
            (cfg.outcome n "TASK_PROMPT"))
    ∨ ∃ A contentFor, proposal_phase cfg st n
        = .inr (collect_responses A "REVISION_REQUEST" "PROPOSAL" contentFor n
            (cfg.outcome n "REVISION_REQUEST")) := by
  simp only [proposal_phase]
  split_ifs
  · exact Or.inr (Or.inl rfl)
  · exact Or.inl ⟨_, rfl⟩
  · exact Or.inl ⟨_, rfl⟩
  · exact Or.inr (Or.inr ⟨_, _, rfl⟩)

lemma proposal_phase_sent_shape (cfg : LoopConfig) (st : LoopState) (n : Nat)
    (v : List RespRecord) (e : List ErrRecord) (s : List SentMsg)
    (h : proposal_phase cfg st n = .inr (v, e, s)) :
    ∀ m ∈ s, critique_request_shape cfg.anonymity m := by
  intro m hm hmt
  exfalso
  rcases proposal_phase_cases cfg st n with ⟨t, hc⟩ | hc | ⟨A, contentFor, hc⟩
  · rw [hc] at h
    exact Sum.noConfusion h
  · rw [hc] at h
    have hs := congrArg (fun p => p.2.2) (Sum.inr.inj h)
    simp only at hs
    rw [← hs] at hm
    have := collect_sent_msgtype cfg.proposer_agents "TASK_PROMPT" "PROPOSAL" _ n _ m hm
    exact absurd (this.symm.trans hmt) (by decide)
  · rw [hc] at h
    have hs := congrArg (fun p => p.2.2) (Sum.inr.inj h)
    simp only at hs
    rw [← hs] at hm
    have := collect_sent_msgtype A "REVISION_REQUEST" "PROPOSAL" _ n _ m hm
    exact absurd (this.symm.trans hmt) (by decide)

lemma run_one_iteration_sent_shape (cfg : LoopConfig) (st : LoopState)
    (hst : ∀ m ∈ st.sent_log, critique_request_shape cfg.anonymity m) :
    ∀ st', (run_one_iteration cfg st = .done st' ∨ run_one_iteration cfg st = .next st') →
      ∀ m ∈ st'.sent_log, critique_request_shape cfg.anonymity m := by
  intro st' hstep m hm
  rw [run_one_iteration] at hstep
  cases hp : proposal_phase cfg st (st.iteration_num + 1) with
  | inl t =>
    rw [hp] at hstep
    rcases hstep with h | h <;> simp only [LoopStep.done.injEq] at h
    · rw [← h] at hm
      exact hst m hm
    · exact absurd h (by simp)
  | inr res =>
    obtain ⟨v, e, s⟩ := res
    rw [hp] at hstep
    have hs := proposal_phase_sent_shape cfg st (st.iteration_num + 1) v e s hp
    have hcrit := critique_phase_sent_shape cfg
      st.task.description (st.iteration_num + 1) v
    simp only at hstep
    split_ifs at hstep with hemp hcheck hceil
    · rcases hstep with h | h
      · cases h
        simp only [List.mem_append] at hm
        rcases hm with hm | hm
        · exact hst m hm
        · exact hs m hm
      · exact absurd h (by simp)
    · rcases hstep with h | h
      · cases h
        simp only [List.mem_append] at hm
        rcases hm with (hm | hm) | hm
        · exact hst m hm
        · exact hs m hm
        · exact hcrit m hm
      · exact absurd h (by simp)
    · rcases hstep with h | h
      · cases h
        simp only [List.mem_append] at hm
        rcases hm with (hm | hm) | hm
        · exact hst m hm
        · exact hs m hm
        · exact hcrit m hm
      · exact absurd h (by simp)
    · rcases hstep with h | h
      · exact absurd h (by simp)
      · cases h
        simp only [List.mem_append] at hm
        rcases hm with (hm | hm) | hm
        · exact hst m hm
        · exact hs m hm
        · exact hcrit m hm

lemma run_loop_aux_sent_shape (cfg : LoopConfig) :
    ∀ (fuel : Nat) (st : LoopState),
      (∀ m ∈ st.sent_log, critique_request_shape cfg.anonymity m) →
      ∀ m ∈ (run_loop_aux cfg fuel st).sent_log, critique_request_shape cfg.anonymity m := by
  intro fuel
  induction fuel with
  | zero => intro st hst; exact hst
  | succ fuel ih =>
    intro st hst m hm
    rw [run_loop_aux] at hm
    cases hstep : run_one_iteration cfg st with
    | done st' =>
      rw [hstep] at hm
      exact run_one_iteration_sent_shape cfg st hst st' (Or.inl hstep) m hm
    | next st' =>
      rw [hstep] at hm
      exact ih st' (run_one_iteration_sent_shape cfg st hst st' (Or.inr hstep)) m hm

/-- C7 -- Anonymization: when enabled, every proposal listed in any
`CRITIQUE_REQUEST` the controller ever sends carries no author agent id,
only its text and a per-round, per-proposal display id, the
display-id-to-author map existing only as controller-local state; when
disabled, each listed proposal carries its author's real agent id and no
display id. -/
theorem anonymization_invariant :
    (∀ (gen : Nat → String) (k : Nat) (records : List RespRecord),
        (∀ p ∈ (build_critique_proposals true gen k records).1,
          p.agent_id = none ∧ ∃ d, p.display_id = some d)
        ∧ (build_critique_proposals false gen k records).2 = []
        ∧ (∀ p ∈ (build_critique_proposals false gen k records).1,
            p.display_id = none ∧ ∃ r ∈ records, p.agent_id = some r.agent_id
              ∧ prop_content r.response_data = some p.proposal))
    ∧ (∀ (cfg : LoopConfig) (task0 : Task) (m : SentMsg),
        m ∈ (run_iteration_loop cfg task0).2 →
        critique_request_shape cfg.anonymity m) := by
  constructor
  · intro gen k records
    exact ⟨build_critique_proposals_anon gen records k,
      (build_critique_proposals_attributed gen records k).1,
      (build_critique_proposals_attributed gen records k).2⟩
  · intro cfg task0 m hm
    rw [run_iteration_loop] at hm
    split_ifs at hm with hpre
    · simp at hm
    · simp only at hm
      exact run_loop_aux_sent_shape cfg (cfg.absolute_max_iterations + 1)
        ⟨task0, 0, [], fun _ => none, []⟩ (by intro m hm; simp at hm) m hm

/-- Witness for C7: the invariant applied to the first critique request
actually sent in the two-proposer scenario (anonymization enabled). -/
theorem anonymization_invariant_witness :
    critique_request_shape c3_scenario_config.anonymity
      (SentMsg.mk "c1" "CRITIQUE_REQUEST"
        (.critiqueRequest
          [⟨"draft A1", some "proposal_1_0", none⟩,
           ⟨"draft A2", some "proposal_1_1", none⟩] "Write the document") 1) :=
  anonymization_invariant.2 c3_scenario_config c3_scenario_task
    (SentMsg.mk "c1" "CRITIQUE_REQUEST"
      (.critiqueRequest
        [⟨"draft A1", some "proposal_1_0", none⟩,
         ⟨"draft A2", some "proposal_1_1", none⟩] "Write the document") 1)
    (by decide)

/-! Section: Terminal statuses and the completion timestamp (C9) -/

lemma proposal_phase_inl_status (cfg : LoopConfig) (st : LoopState) (n : Nat)
    (t : Task) (h : proposal_phase cfg st n = .inl t) :
    t.status ∈ terminal_statuses ∧ t.completed_at = true := by
  simp only [proposal_phase] at h
  split_ifs at h
  all_goals cases Sum.inl.inj h
  all_goals exact ⟨by simp [Task.update_status, terminal_statuses],
    by simp [Task.update_status, terminal_statuses]⟩

lemma run_one_iteration_status (cfg : LoopConfig) (st : LoopState)
    (hrun : st.task.status = "running") :
    (∀ st', run_one_iteration cfg st = .next st' →
        st'.task.status = "running" ∧ st'.iteration_num = st.iteration_num + 1
        ∧ st.iteration_num + 1 < cfg.absolute_max_iterations)
    ∧ (∀ st', run_one_iteration cfg st = .done st' →
        st'.task.status ∈ terminal_statuses ∧ st'.task.completed_at = true) := by
  constructor
  · intro st' h
    rw [run_one_iteration] at h
    cases hp : proposal_phase cfg st (st.iteration_num + 1) with
    | inl t =>
      rw [hp] at h
      exact absurd h (by simp)
    | inr res =>
      obtain ⟨v, e, s⟩ := res
      rw [hp] at h
      simp only at h
      split_ifs at h with hemp hcheck hceil
      all_goals cases LoopStep.next.inj h
      all_goals exact ⟨hrun, rfl, by omega⟩
  · intro st' h
    rw [run_one_iteration] at h
    cases hp : proposal_phase cfg st (st.iteration_num + 1) with
    | inl t =>
      rw [hp] at h
      simp only [LoopStep.done.injEq] at h
      rw [← h]
      exact proposal_phase_inl_status cfg st _ t hp
    | inr res =>
      obtain ⟨v, e, s⟩ := res
      rw [hp] at h
      simp only at h
      split_ifs at h with hemp hcheck hceil
      all_goals cases LoopStep.done.inj h
      all_goals exact ⟨by simp [Task.update_status, terminal_statuses],
        by simp [Task.update_status, terminal_statuses]⟩

lemma run_loop_aux_terminal (cfg : LoopConfig) :
    ∀ (fuel : Nat) (st : LoopState),
      st.task.status = "running" →
      st.iteration_num + fuel = cfg.absolute_max_iterations + 1 →
      st.iteration_num ≤ cfg.absolute_max_iterations →
      (run_loop_aux cfg fuel st).task.status ∈ terminal_statuses
      ∧ (run_loop_aux cfg fuel st).task.completed_at = true := by
  intro fuel
  induction fuel with
  | zero => intro st h1 h2 h3; omega
  | succ fuel ih =>
    intro st h1 h2 h3
    rw [run_loop_aux]
    cases hstep : run_one_iteration cfg st with
    | done st' => exact (run_one_iteration_status cfg st h1).2 st' hstep
    | next st' =>
      obtain ⟨hs, hn, hlt⟩ := (run_one_iteration_status cfg st h1).1 st' hstep
      exact ih st' hs (by omega) (by omega)

lemma finish_loop_preserves (t : Task) (h : List IterationLog)
    (ht : t.status ∈ terminal_statuses) :
    (finish_loop t h).status = t.status ∧ (finish_loop t h).completed_at = t.completed_at := by
  have hne : t.status ≠ "running" := by
    intro hr; rw [hr] at ht; exact absurd ht (by decide)
  rw [finish_loop]
  by_cases hf : t.status = "failed" ∨ t.status = "failed_timeout"
  · rw [if_pos hf]; exact ⟨rfl, rfl⟩
  · rw [if_neg hf]
    simp [hne]

/-- C9 -- Terminal statuses are absorbing and timestamped: `update_status`
into any of `completed`/`failed`/`converged`/`failed_timeout` sets the
completion timestamp; from a `running` task, a loop pass either stays
`running` or ends in a terminal, timestamped status; the loop epilogue and
the caller's wall-clock-budget update never change a terminal status; and a
full run from `running` ends terminal with the timestamp set. -/
theorem terminal_status_invariant :
    (∀ (t : Task) (s : String) (e : Option String), s ∈ terminal_statuses →
        (t.update_status s e).status = s ∧ (t.update_status s e).completed_at = true)
    ∧ (∀ (cfg : LoopConfig) (st : LoopState), st.task.status = "running" →
        (∀ st', run_one_iteration cfg st = .next st' → st'.task.status = "running")
        ∧ (∀ st', run_one_iteration cfg st = .done st' →
            st'.task.status ∈ terminal_statuses ∧ st'.task.completed_at = true))
    ∧ (∀ (t : Task) (h : List IterationLog), t.status ∈ terminal_statuses →
        (finish_loop t h).status = t.status)
    ∧ (∀ t : Task, t.status ∈ terminal_statuses → run_task_timeout_update t = t)
    ∧ (∀ (cfg : LoopConfig) (task0 : Task), task0.status = "running" →
        (run_iteration_loop cfg task0).1.status ∈ terminal_statuses
        ∧ (run_iteration_loop cfg task0).1.completed_at = true) := by
  refine ⟨?_, ?_, ?_, ?_, ?_⟩
  · intro t s e hs
    refine ⟨rfl, ?_⟩
    simp [Task.update_status, hs]
  · intro cfg st hrun
    exact ⟨fun st' h => ((run_one_iteration_status cfg st hrun).1 st' h).1,
      (run_one_iteration_status cfg st hrun).2⟩
  · intro t h ht
    exact (finish_loop_preserves t h ht).1
  · intro t ht
    rw [run_task_timeout_update, if_neg]
    intro hr
    rw [hr] at ht
    exact absurd ht (by decide)
  · intro cfg task0 hrun
    rw [run_iteration_loop]
    split_ifs with hpre
    · exact ⟨by simp [Task.update_status, terminal_statuses],
        by simp [Task.update_status, terminal_statuses]⟩
    · simp only
      have hterm := run_loop_aux_terminal cfg (cfg.absolute_max_iterations + 1)
        ⟨task0, 0, [], fun _ => none, []⟩ hrun (by simp) (by simp)
      obtain ⟨hps, hpc⟩ := finish_loop_preserves _
        (run_loop_aux cfg (cfg.absolute_max_iterations + 1)
          ⟨task0, 0, [], fun _ => none, []⟩).history hterm.1
      rw [hps, hpc]
      exact hterm

/-- Witness for C9: the invariant evaluated on concrete inputs -- a
`converged` update stamps the task; the timeout update leaves a `completed`
task alone; the one-proposer scenario run ends terminal and timestamped. -/
theorem terminal_status_invariant_witness :
    ((c2_scenario_task.update_status "converged" none).status = "converged"
      ∧ (c2_scenario_task.update_status "converged" none).completed_at = true)
    ∧ run_task_timeout_update
        ⟨"d", [], "completed", none, [], none, true⟩ = ⟨"d", [], "completed", none, [], none, true⟩
    ∧ ((run_iteration_loop c2_scenario_config c2_scenario_task).1.status ∈ terminal_statuses
      ∧ (run_iteration_loop c2_scenario_config c2_scenario_task).1.completed_at = true) := by
  refine ⟨?_, ?_, ?_⟩
  · exact terminal_status_invariant.1 c2_scenario_task "converged" none (by decide)
  · exact terminal_status_invariant.2.2.2.1
      ⟨"d", [], "completed", none, [], none, true⟩ (by decide)
  · exact terminal_status_invariant.2.2.2.2 c2_scenario_config c2_scenario_task rfl

/-! Section: Message envelopes and the local delivery channel (C8, C10)

`datetime` is opaque to the claims: a timestamp is modelled by its ISO-format
string, so `isoformat` is the identity and `fromisoformat` always succeeds --
the standard library guarantees `fromisoformat(isoformat(t)) == t`. -/

/-- A recipient: a single agent id or a list of ids (`Union[str, List[str]]`). -/
inductive Recipient where
  | single (s : String)
  | multi (ids : List String)
  deriving DecidableEq, Repr

/-- A value stored in a serialized message dictionary. -/
inductive PyVal where
  | str (s : String)
  | strList (l : List String)
  | dict (d : List (String × String))
  | noneVal
  deriving DecidableEq, Repr

/-- Errors raised by `Message` construction and `LocalCommunicationChannel.send`. -/
inductive PyError where
  | typeError (msg : String)
  | valueError (msg : String)
  | keyError (k : String)
  | agentNotFound (msg : String)
  deriving DecidableEq, Repr

/-- The `Message` envelope (pydagi.py:74-153).  `content` and `metadata` are
string dictionaries (the claims never look inside nested values). -/
structure Message where
  message_id : String
  sender_id : String
  recipient_id : Recipient
  message_type : String
  content : List (String × String)
  task_id : Option String
  timestamp : String
  metadata : List (String × String)
  deriving DecidableEq, Repr

/-- Model of `Message.__init__` (pydagi.py:78-114): validate the arguments
(`ValueError` on falsy sender/recipient/type, or an empty id inside a
recipient list), generate the message id and timestamp, and default the
metadata to an empty dictionary (`metadata or {}`). -/
def message_init (fresh_id now : String) (sender_id : String)
    (recipient_id : Recipient) (message_type : String)
    (content : List (String × String)) (task_id : Option String)
    (metadata : Option (List (String × String))) : Except PyError Message :=
  let recipient_falsy : Bool := match recipient_id with
    | .single s => s == ""
    | .multi l => l.isEmpty
  let recipient_has_empty : Bool := match recipient_id with
    | .single _ => false
    | .multi l => l.any (fun rid => rid == "")
  if sender_id = "" then
    .error (.valueError "sender_id must be a non-empty string.")
  else if recipient_falsy then
    .error (.valueError "recipient_id must be a non-empty string or list.")
  else if recipient_has_empty then
    .error (.valueError "All recipient IDs in a list must be non-empty strings.")
  else if message_type = "" then
    .error (.valueError "message_type must be a non-empty string.")
  else
    .ok { message_id := fresh_id
          sender_id := sender_id
          recipient_id := recipient_id
          message_type := message_type
          content := content
          task_id := task_id
          timestamp := now
          metadata := metadata.getD [] }

/-- Model of `Message.to_dict` (pydagi.py:121-132). -/
def Message.to_dict (m : Message) : List (String × PyVal) :=
  [("message_id", .str m.message_id),
   ("sender_id", .str m.sender_id),
   ("recipient_id", match m.recipient_id with
     | .single s => .str s
     | .multi l => .strList l),
   ("message_type", .str m.message_type),
   ("content", .dict m.content),
   ("task_id", match m.task_id with | some t => .str t | none => .noneVal),
   ("timestamp", .str m.timestamp),
   ("metadata", .dict m.metadata)]

/-- The keyword parameters accepted by `Message.__init__`. -/
def message_init_params : List String :=
  ["sender_id", "recipient_id", "message_type", "content", "task_id", "metadata"]

/-- Model of `data.get('task_id')` as passed to `cls(...)` in `from_dict`. -/
def decode_task_id : Option PyVal → Option String
  | some (.str t) => some t
  | _ => none

/-- Model of `data.get('metadata')` as passed to `cls(...)` in `from_dict`. -/
def decode_metadata : Option PyVal → Option (List (String × String))
  | some (.dict d) => some d
  | _ => none

/-- A `cls(...)` call whose four required arguments arrive as dictionary
values: Python's `isinstance` checks in `__init__` reject non-string /
non-list shapes with `ValueError`. -/
def message_init_typed (fresh_id now : String) (sv rv tv cv : PyVal)
    (tiv mdv : Option PyVal) : Except PyError Message :=
  match sv, rv, tv, cv with
  | .str s, .str r, .str t, .dict c =>
      message_init fresh_id now s (.single r) t c (decode_task_id tiv) (decode_metadata mdv)
  | .str s, .strList r, .str t, .dict c =>
      message_init fresh_id now s (.multi r) t c (decode_task_id tiv) (decode_metadata mdv)
  | _, _, _, _ => .error (.valueError "invalid argument type")

/-- Model of `Message(**data)`: Python binds the keyword arguments before running the
body, so a key that is not an `__init__` parameter raises `TypeError` and a
missing required parameter raises `TypeError`. -/
def message_init_kwargs (fresh_id now : String) (data : List (String × PyVal)) :
    Except PyError Message :=
  if data.any (fun kv => !message_init_params.contains kv.1) then
    .error (.typeError "__init__() got an unexpected keyword argument")
  else
    match dictGet data "sender_id", dictGet data "recipient_id",
          dictGet data "message_type", dictGet data "content" with
    | some sv, some rv, some tv, some cv =>
        message_init_typed fresh_id now sv rv tv cv
          (dictGet data "task_id") (dictGet data "metadata")
    | _, _, _, _ => .error (.typeError "__init__() missing a required argument")

/-- Model of `datetime.fromisoformat` on a timestamp token; total in the model (see
the section comment), matching the guarantee for strings `isoformat`
produced. -/
def parse_isoformat (s : String) : Option String := some s

/-- Model of `data['k']`: `KeyError` when the key is absent. -/
def pyGetItem (data : List (String × PyVal)) (k : String) : Except PyError PyVal :=
  match dictGet data k with
  | some v => .ok v
  | none => .error (.keyError k)

/-- The tail of `Message.from_dict` (pydagi.py:145-153): restore the original
message id and timestamp from the dictionary when present, falling back to
the current time on an unparsable timestamp. -/
def restore_id_timestamp (data : List (String × PyVal)) (now : String)
    (msg : Message) : Message :=
  let msg1 := match dictGet data "message_id" with
    | some (.str i) => { msg with message_id := i }
    | _ => msg
  match dictGet data "timestamp" with
  | some (.str ts) =>
      (match parse_isoformat ts with
       | some t => { msg1 with timestamp := t }
       | none => { msg1 with timestamp := now })
  | _ => msg1

/-- Model of `Message.from_dict` (pydagi.py:134-153): subscript the four required
keys (`KeyError` if absent), call `cls(...)`, then restore id and
timestamp. -/
def Message.from_dict (fresh_id now : String) (data : List (String × PyVal)) :
    Except PyError Message :=
  match pyGetItem data "sender_id", pyGetItem data "recipient_id",
        pyGetItem data "message_type", pyGetItem data "content" with
  | .ok sv, .ok rv, .ok tv, .ok cv =>
      (match message_init_typed fresh_id now sv rv tv cv
          (dictGet data "task_id") (dictGet data "metadata") with
       | .ok msg => .ok (restore_id_timestamp data now msg)
       | .error e => .error e)
  | .error e, _, _, _ => .error e
  | _, .error e, _, _ => .error e
  | _, _, .error e, _ => .error e
  | _, _, _, .error e => .error e

/-- Model of `LocalCommunicationChannel.send` (pydagi.py:844-883), with the agent
directory as a list of known ids and a fuel bound standing in for Python's
recursion limit.  The loop walks the recipient ids; a `'*'` entry expands to
all other known agents by copying the envelope via `Message(**to_dict())`
and re-invoking send, then returns; other ids deliver when known and are
collected as `not_found` otherwise; delivering to nobody (for a non-empty,
non-wildcard recipient list) raises `AgentNotFoundError`.  A raised error
propagates out of the loop, as in Python. -/
def send_aux (known : List String) (fresh_id now : String) :
    Nat → Message → List String → List String → List (String × Message) →
    List String → Except PyError (List (String × Message))
  | 0, _, _, _, _, _ => .error (.typeError "maximum recursion depth exceeded")
  | fuel + 1, message, recipient_ids, remaining, delivered_to, not_found_ids =>
    match remaining with
    | [] =>
        if delivered_to.isEmpty ∧ ¬recipient_ids.isEmpty ∧ recipient_ids ≠ ["*"] then
          .error (.agentNotFound "Failed to deliver message. Recipient(s) not found")
        else .ok delivered_to
    | r_id :: rest =>
        if r_id = "*" then
          let all_other_agents := known.filter (fun aid => aid ≠ message.sender_id)
          if all_other_agents.isEmpty then
            .ok delivered_to
          else
            match message_init_kwargs fresh_id now message.to_dict with
            | .error e => .error e
            | .ok broadcast_msg =>
                let bm := { broadcast_msg with recipient_id := .multi all_other_agents }
                send_aux known fresh_id now fuel bm all_other_agents all_other_agents [] []
        else
          if known.contains r_id then
            send_aux known fresh_id now fuel message recipient_ids rest
              (delivered_to ++ [(r_id, message)]) not_found_ids
          else
            send_aux known fresh_id now fuel message recipient_ids rest
              delivered_to (not_found_ids ++ [r_id])

def send (known : List String) (fresh_id now : String) (fuel : Nat)
    (message : Message) : Except PyError (List (String × Message)) :=
  let recipient_ids := match message.recipient_id with
    | .single s => [s]
    | .multi l => l
  send_aux known fresh_id now fuel message recipient_ids recipient_ids [] []

lemma message_init_kwargs_to_dict (fresh_id now : String) (m : Message) :
    message_init_kwargs fresh_id now m.to_dict
      = .error (.typeError "__init__() got an unexpected keyword argument") := rfl

/-- C8 -- Contrary to the claim, a wildcard envelope is never delivered:
whenever at least one other agent is known, the broadcast copy is built as
`Message(**message.to_dict())`, and `to_dict` emits the keys `message_id`
and `timestamp` which `Message.__init__` does not accept, so the call raises
`TypeError` before any copy is sent.  Shown in general and on the concrete
two-agent network. -/
theorem wildcard_send_type_error :
    (∀ (known : List String) (fresh_id now : String) (fuel : Nat) (message : Message),
        message.recipient_id = .single "*" →
        known.filter (fun aid => aid ≠ message.sender_id) ≠ [] →
        send known fresh_id now (fuel + 1) message
          = .error (.typeError "__init__() got an unexpected keyword argument"))
    ∧ send ["agent_a", "agent_b"] "fresh" "t1" 8
        ⟨"m1", "agent_a", .single "*", "TASK_PROMPT", [], none, "t0", []⟩
      = .error (.typeError "__init__() got an unexpected keyword argument") := by
  constructor
  · intro known fresh_id now fuel message hrec hother
    have hne : ¬ ((known.filter (fun aid => aid ≠ message.sender_id)).isEmpty = true) := by
      simpa [List.isEmpty_iff] using hother
    simp only [send, hrec]
    rw [send_aux]
    simp [hne, message_init_kwargs_to_dict]
    simpa [List.filter_eq_nil_iff] using hother
  · rfl

/-- Witness for C8's universal part at the concrete two-agent network. -/
theorem wildcard_send_type_error_witness :
    send ["agent_a", "agent_b"] "fresh" "t1" 4
      ⟨"m2", "agent_b", .single "*", "PROPOSAL", [("k", "v")], some "task9", "t0", []⟩
      = .error (.typeError "__init__() got an unexpected keyword argument") :=
  wildcard_send_type_error.1 ["agent_a", "agent_b"] "fresh" "t1" 3
    ⟨"m2", "agent_b", .single "*", "PROPOSAL", [("k", "v")], some "task9", "t0", []⟩
    rfl (by decide)

/-- Well-formedness that `Message.__init__` enforces. -/
def Message.valid (m : Message) : Prop :=
  m.sender_id ≠ "" ∧ m.message_type ≠ "" ∧
  (match m.recipient_id with
   | .single s => s ≠ ""
   | .multi l => ¬l.isEmpty ∧ ∀ r ∈ l, r ≠ "")

/-- C10 -- Serialization round-trip: every message `__init__` accepts is
valid, and for every valid message `from_dict (to_dict m)` reconstructs `m`
exactly -- same id, sender, recipient(s), type, content, task id, timestamp
and metadata. -/
theorem message_dict_roundtrip :
    (∀ (fresh_id now s t : String) (r : Recipient) (c : List (String × String))
        (ti : Option String) (md : Option (List (String × String))) (m : Message),
        message_init fresh_id now s r t c ti md = .ok m → m.valid)
    ∧ (∀ (m : Message) (fresh_id now : String), m.valid →
        Message.from_dict fresh_id now m.to_dict = .ok m) := by
  constructor
  · intro fresh_id now s t r c ti md m h
    simp only [message_init] at h
    split_ifs at h with h1 h2 h3 h4
    cases Except.ok.inj h
    refine ⟨h1, h4, ?_⟩
    cases r with
    | single s' => simpa using h2
    | multi l =>
      refine ⟨by simpa using h2, ?_⟩
      intro rid hrid hempty
      exact h3 (List.any_eq_true.mpr ⟨rid, hrid, by simp [hempty]⟩)
  · intro m fresh_id now hv
    obtain ⟨mid, sid, rid, mtype, cont, tid, ts, md⟩ := m
    obtain ⟨hs, ht, hr⟩ := hv
    simp only at hs ht hr
    cases rid with
    | single r =>
      cases tid with
      | none =>
          simp [Message.from_dict, Message.to_dict, pyGetItem, dictGet,
            message_init_typed, message_init, decode_task_id, decode_metadata,
            restore_id_timestamp, parse_isoformat, hs, ht, hr]
      | some ti =>
          simp [Message.from_dict, Message.to_dict, pyGetItem, dictGet,
            message_init_typed, message_init, decode_task_id, decode_metadata,
            restore_id_timestamp, parse_isoformat, hs, ht, hr]
    | multi l =>
      obtain ⟨hne, hall⟩ := hr
      have hmem : "" ∉ l := fun hm => hall "" hm rfl
      cases tid with
      | none =>
          simp [Message.from_dict, Message.to_dict, pyGetItem, dictGet,
            message_init_typed, message_init, decode_task_id, decode_metadata,
            restore_id_timestamp, parse_isoformat, hs, ht, hne, hmem]
      | some ti =>
          simp [Message.from_dict, Message.to_dict, pyGetItem, dictGet,
            message_init_typed, message_init, decode_task_id, decode_metadata,
            restore_id_timestamp, parse_isoformat, hs, ht, hne, hmem]

/-- Witness for C10: the round-trip evaluated on a concrete message. -/
theorem message_dict_roundtrip_witness :
    Message.from_dict "other_fresh_id" "other_now"
      (Message.to_dict ⟨"m7", "agent_a", .multi ["agent_b", "agent_c"], "PROPOSAL",
        [("proposal", "text")], some "task1", "2024-01-01T00:00:00", [("iteration", "1")]⟩)
      = .ok ⟨"m7", "agent_a", .multi ["agent_b", "agent_c"], "PROPOSAL",
        [("proposal", "text")], some "task1", "2024-01-01T00:00:00", [("iteration", "1")]⟩ :=
  message_dict_roundtrip.2
    ⟨"m7", "agent_a", .multi ["agent_b", "agent_c"], "PROPOSAL",
      [("proposal", "text")], some "task1", "2024-01-01T00:00:00", [("iteration", "1")]⟩
    "other_fresh_id" "other_now" ⟨by decide, by decide, by decide, by decide⟩

end DAGI
